import Mathlib

/-!
Shallow embedding of `src/homeoffice.c`: the SPI command/response protocol of
the homeoffice power-monitoring/relay peripheral.  Buffers are lists of bytes
(`Nat` values), the SPI bus is an oracle giving, for each successive
`SPI_IOC_MESSAGE` ioctl, either the 20-byte receive buffer it filled or `none`
for a driver-level transfer failure (on which the C program exits).
-/

namespace Homeoffice

/-- CMD_READ_VOLTAGE, 0x01. -/
def CMD_READ_VOLTAGE : Nat := 0x01
/-- CMD_READ_CURRENT, 0x02. -/
def CMD_READ_CURRENT : Nat := 0x02
/-- CMD_READ_POWER, 0x03. -/
def CMD_READ_POWER : Nat := 0x03
/-- CMD_READ_RELAY, 0x04. -/
def CMD_READ_RELAY : Nat := 0x04
/-- CMD_READ_ALL, 0x05. -/
def CMD_READ_ALL : Nat := 0x05
/-- CMD_SET_RELAY_ON, 0x06. -/
def CMD_SET_RELAY_ON : Nat := 0x06
/-- CMD_SET_RELAY_OFF, 0x07. -/
def CMD_SET_RELAY_OFF : Nat := 0x07

/-- Size of the fixed stack buffers `sendbuf` / `recvbuf` in `spi_transfer`. -/
def FRAME_LEN : Nat := 20

/-- A byte buffer (each entry one byte). -/
abbrev Frame := List Nat

/-- `sizeof(float)` on the target: 4 bytes. -/
def sizeof_float : Nat := 4

/-- `sizeof(uint8_t)`: 1 byte. -/
def sizeof_uint8 : Nat := 1

/-- `sizeof(homeoffice_data)`: the struct is `__packed__` (members at offsets
voltage 0, current 4, power 8, relay 12, 13 bytes of members) and
`aligned(4)`, so its size is rounded up to the next multiple of 4: 16. -/
def sizeof_homeoffice_data : Nat := 16

/-- `offsetof(homeoffice_data, voltage)`. -/
def OFF_VOLTAGE : Nat := 0
/-- `offsetof(homeoffice_data, current)`. -/
def OFF_CURRENT : Nat := 4
/-- `offsetof(homeoffice_data, power)`. -/
def OFF_POWER : Nat := 8
/-- `offsetof(homeoffice_data, relay)`. -/
def OFF_RELAY : Nat := 12

/-- The zero-initialised `gs_homeoffice_data` image (also the result of the
`memset` in the menu loop). -/
def zeros_homeoffice : List Nat := List.replicate sizeof_homeoffice_data 0

/-- One SPI exchange as handed to the driver: the 20-byte `sendbuf` contents
and the `.len` field of the `spi_ioc_transfer` struct. -/
structure Exchange where
  tx : List Nat
  len : Nat
deriving Repr, DecidableEq

/-- The `sendbuf` contents in `spi_transfer`: zero-filled, then when
`tx_buf != NULL` the first `len` bytes are copied from it
(`memcpy(sendbuf, tx_buf, len)`). -/
def sendbuf (tx : Option (List Nat)) (len : Nat) : List Nat :=
  match tx with
  | none => List.replicate FRAME_LEN 0
  | some t => t.take len ++ List.replicate (FRAME_LEN - len) 0

/-- The payload extraction in `spi_transfer`: `memcpy(rx_buf, &recvbuf[3], len)`,
i.e. bytes 3..3+len of the received frame. -/
def decodePayload (frame : List Nat) (len : Nat) : List Nat :=
  (frame.drop 3).take len

/-- `spi_transfer(tx_buf, rx_buf, len)`.  `tx` is `tx_buf` (`none` = NULL);
`rxNull` says whether `rx_buf` is NULL; `reply` is the ioctl outcome: `none`
models a failed `SPI_IOC_MESSAGE` (the program prints a diagnostic and calls
`exit(1)` before copying anything out), `some recvbuf` the filled receive
buffer.  Returns the wire exchange together with `none` on failure, or the
bytes copied to `rx_buf` (`[]` when `rx_buf` is NULL). -/
def spi_transfer (tx : Option (List Nat)) (rxNull : Bool) (len : Nat)
    (reply : Option Frame) : Exchange × Option (List Nat) :=
  let ex : Exchange := ⟨sendbuf tx len, FRAME_LEN⟩
  match reply with
  | none => (ex, none)
  | some recvbuf => (ex, some (if rxNull then [] else decodePayload recvbuf len))

/-- `memcpy` of `v` into a struct image `st` at byte offset `off`
(field assignment through `spi_read(&field, len)`). -/
def writeBytes (st : List Nat) (off : Nat) (v : List Nat) : List Nat :=
  st.take off ++ v ++ st.drop (off + v.length)

/-- Outcome of one dispatcher operation: the global `gs_homeoffice_data` image
and the list of SPI exchanges performed; `exited` records an `exit(1)` on
transfer failure, with the global image as it stood at that moment. -/
inductive Outcome where
  | ok (st : List Nat) (trace : List Exchange)
  | exited (st : List Nat) (trace : List Exchange)
deriving Repr, DecidableEq

/-- The `gs_homeoffice_data` image of an outcome. -/
def Outcome.state : Outcome → List Nat
  | .ok st _ => st
  | .exited st _ => st

/-- The exchanges an outcome performed. -/
def Outcome.trace : Outcome → List Exchange
  | .ok _ tr => tr
  | .exited _ tr => tr

/-- Whether the operation returned normally (no `exit(1)`). -/
def Outcome.isOk : Outcome → Bool
  | .ok _ _ => true
  | .exited _ _ => false

/-- `spi_write(cmd)`: `spi_transfer(&cmd, NULL, 1)` — one full exchange whose
frame carries the command byte, reply discarded (`rx_buf` NULL). -/
def spi_write (cmd : Nat) (reply : Option Frame) : Exchange × Option (List Nat) :=
  spi_transfer (some [cmd]) true 1 reply

/-- `spi_read(rx_buf, len)`: `spi_transfer(NULL, rx_buf, len)` — one full
exchange with an all-zero transmit frame, reply payload copied out. -/
def spi_read (len : Nat) (reply : Option Frame) : Exchange × Option (List Nat) :=
  spi_transfer none false len reply

/-- The common body of every dispatcher operation in the C file:
`spi_write(cmd)` — a first full exchange whose frame carries the command —
followed by `spi_read(&field, len)` — a second full exchange with an all-zero
frame, whose reply bytes 3..3+len are copied into the global struct at byte
offset `off`.  `bus i` is the reply to the i-th ioctl of this operation. -/
def writeThenRead (cmd off len : Nat) (st : List Nat)
    (bus : Nat → Option Frame) : Outcome :=
  let r1 := spi_write cmd (bus 0)
  match r1.2 with
  | none => .exited st [r1.1]
  | some _ =>
    let r2 := spi_read len (bus 1)
    match r2.2 with
    | none => .exited st [r1.1, r2.1]
    | some payload => .ok (writeBytes st off payload) [r1.1, r2.1]

/-- `spi_read_voltage`: write CMD_READ_VOLTAGE, read 4 bytes into `.voltage`. -/
def spi_read_voltage (st : List Nat) (bus : Nat → Option Frame) : Outcome :=
  writeThenRead CMD_READ_VOLTAGE OFF_VOLTAGE sizeof_float st bus

/-- `spi_read_current`: write CMD_READ_CURRENT, read 4 bytes into `.current`. -/
def spi_read_current (st : List Nat) (bus : Nat → Option Frame) : Outcome :=
  writeThenRead CMD_READ_CURRENT OFF_CURRENT sizeof_float st bus

/-- `spi_read_power`: write CMD_READ_POWER, read 4 bytes into `.power`. -/
def spi_read_power (st : List Nat) (bus : Nat → Option Frame) : Outcome :=
  writeThenRead CMD_READ_POWER OFF_POWER sizeof_float st bus

/-- `spi_read_relay`: write CMD_READ_RELAY, read 1 byte into `.relay`. -/
def spi_read_relay (st : List Nat) (bus : Nat → Option Frame) : Outcome :=
  writeThenRead CMD_READ_RELAY OFF_RELAY sizeof_uint8 st bus

/-- `spi_read_all`: write CMD_READ_ALL, read `sizeof(homeoffice_data)` = 16
bytes into the whole struct. -/
def spi_read_all (st : List Nat) (bus : Nat → Option Frame) : Outcome :=
  writeThenRead CMD_READ_ALL 0 sizeof_homeoffice_data st bus

/-- `spi_set_relay(state)`: write `state ? CMD_SET_RELAY_ON : CMD_SET_RELAY_OFF`,
then read 1 byte into `.relay`. -/
def spi_set_relay (state : Nat) (st : List Nat) (bus : Nat → Option Frame) :
    Outcome :=
  writeThenRead (if state = 0 then CMD_SET_RELAY_OFF else CMD_SET_RELAY_ON)
    OFF_RELAY sizeof_uint8 st bus

/-- The menu choices of `main` that reach the SPI layer (choices 1–7). -/
inductive Choice where
  | power | current | voltage | relayRead | all | relayOn | relayOff
deriving Repr, DecidableEq

/-- The `switch (choice)` of `main`: which SPI operation each choice runs. -/
def dispatch : Choice → List Nat → (Nat → Option Frame) → Outcome
  | .power => spi_read_power
  | .current => spi_read_current
  | .voltage => spi_read_voltage
  | .relayRead => spi_read_relay
  | .all => spi_read_all
  | .relayOn => spi_set_relay 1
  | .relayOff => spi_set_relay 0

/-- The command code byte each choice puts in byte 0 of its first frame. -/
def choiceCmd : Choice → Nat
  | .power => CMD_READ_POWER
  | .current => CMD_READ_CURRENT
  | .voltage => CMD_READ_VOLTAGE
  | .relayRead => CMD_READ_RELAY
  | .all => CMD_READ_ALL
  | .relayOn => CMD_SET_RELAY_ON
  | .relayOff => CMD_SET_RELAY_OFF

/-- The struct byte offset each choice's `spi_read` writes to. -/
def choiceOff : Choice → Nat
  | .power => OFF_POWER
  | .current => OFF_CURRENT
  | .voltage => OFF_VOLTAGE
  | .relayRead => OFF_RELAY
  | .all => 0
  | .relayOn => OFF_RELAY
  | .relayOff => OFF_RELAY

/-- The payload length each choice's `spi_read` requests. -/
def choiceLen : Choice → Nat
  | .power => sizeof_float
  | .current => sizeof_float
  | .voltage => sizeof_float
  | .relayRead => sizeof_uint8
  | .all => sizeof_homeoffice_data
  | .relayOn => sizeof_uint8
  | .relayOff => sizeof_uint8

/-- The raw 32 bits of a little-endian 4-byte buffer. -/
def float32bits (b : List Nat) : Nat :=
  b.getD 0 0 + 256 * b.getD 1 0 + 256 ^ 2 * b.getD 2 0 + 256 ^ 3 * b.getD 3 0

/-- Exact value of an IEEE-754 single-precision number given as 4 little-endian
bytes; `none` for the non-finite encodings (exponent 255). -/
def float32val (b : List Nat) : Option ℚ :=
  let bits : Nat := float32bits b
  let s : Nat := bits / 2 ^ 31
  let e : Nat := bits / 2 ^ 23 % 256
  let m : Nat := bits % 2 ^ 23
  if e = 255 then none
  else
    let mag : ℚ :=
      if e = 0 then (m : ℚ) / 2 ^ 23 * (2 : ℚ) ^ (-126 : ℤ)
      else (1 + (m : ℚ) / 2 ^ 23) * (2 : ℚ) ^ ((e : ℤ) - 127)
    some (if s = 1 then -mag else mag)

/-- The `.voltage` field of a `homeoffice_data` image, decoded. -/
def voltage (st : List Nat) : Option ℚ :=
  float32val ((st.drop OFF_VOLTAGE).take 4)

/-- The `.current` field of a `homeoffice_data` image, decoded. -/
def current (st : List Nat) : Option ℚ :=
  float32val ((st.drop OFF_CURRENT).take 4)

/-- The `.power` field of a `homeoffice_data` image, decoded. -/
def power (st : List Nat) : Option ℚ :=
  float32val ((st.drop OFF_POWER).take 4)

/-- The `.relay` field of a `homeoffice_data` image. -/
def relay (st : List Nat) : Nat :=
  st.getD OFF_RELAY 0

/-- The number `spi_read_voltage` prints: `gs_homeoffice_data.voltage`,
unscaled (unit label "V"). -/
def displayVoltage (st : List Nat) : Option ℚ :=
  voltage st

/-- The number `spi_read_current` prints: `gs_homeoffice_data.current * 1000`
(unit label "mA"). -/
def displayCurrent (st : List Nat) : Option ℚ :=
  (current st).map fun q => q * 1000

/-- The number `spi_read_power` prints: `gs_homeoffice_data.power * 1000`
(unit label "mW"). -/
def displayPower (st : List Nat) : Option ℚ :=
  (power st).map fun q => q * 1000

/-- What `spi_read_relay` / `spi_set_relay` print: ON iff the relay byte is
non-zero (`gs_homeoffice_data.relay ? "ON" : "OFF"`). -/
def displayRelayOn (st : List Nat) : Bool :=
  relay st != 0

/-- Diagnostics the C file can print (via `perror`) before `exit(1)`. -/
inductive Diag where
  | openDevice | setMode | setBits | setSpeed | transferData
deriving Repr, DecidableEq

/-- Result of `spi_init`. -/
inductive InitResult where
  | ok
  | exited (d : Diag)
deriving Repr, DecidableEq

/-- Driver responses during startup: whether `open` and each of the three
configuration ioctls (mode, bits per word, speed) succeed. -/
structure InitEnv where
  openOk : Bool
  modeOk : Bool
  bitsOk : Bool
  speedOk : Bool
deriving Repr, DecidableEq

/-- `spi_init`: open the device, then configure mode, word width and clock
speed; each failing step prints its diagnostic and exits. -/
def spi_init (env : InitEnv) : InitResult :=
  if env.openOk = false then .exited .openDevice
  else if env.modeOk = false then .exited .setMode
  else if env.bitsOk = false then .exited .setBits
  else if env.speedOk = false then .exited .setSpeed
  else .ok

/-- Result of a whole program run: the SPI exchanges performed, and the
diagnostic when the process died via `exit(1)`. -/
inductive ProgResult where
  | normal (trace : List Exchange)
  | fatal (d : Diag) (trace : List Exchange)
deriving Repr, DecidableEq

/-- The menu loop of `main`: each iteration zeroes `gs_homeoffice_data`
(the `memset`) and runs the chosen operation; a transfer failure kills the
process.  `bus i j` is the reply to the j-th ioctl of the i-th iteration. -/
def runChoices : List Choice → (Nat → Nat → Option Frame) → Nat → ProgResult
  | [], _, _ => .normal []
  | c :: cs, bus, i =>
    match dispatch c zeros_homeoffice (bus i) with
    | .ok _ tr =>
      match runChoices cs bus (i + 1) with
      | .normal tr2 => .normal (tr ++ tr2)
      | .fatal d tr2 => .fatal d (tr ++ tr2)
    | .exited _ tr => .fatal .transferData tr

/-- One program run: `spi_init`, then the menu iterations.  A startup failure
exits before any exchange is performed. -/
def session (env : InitEnv) (cs : List Choice) (bus : Nat → Nat → Option Frame) :
    ProgResult :=
  match spi_init env with
  | .exited d => .fatal d []
  | .ok => runChoices cs bus 0

/-! ## Helper lemmas -/

/-- A 16-byte buffer is a literal 16-element list. -/
lemma listOfLen16 (l : List Nat) (h : l.length = 16) :
    ∃ a0 a1 a2 a3 a4 a5 a6 a7 a8 a9 a10 a11 a12 a13 a14 a15,
      l = [a0, a1, a2, a3, a4, a5, a6, a7, a8, a9, a10, a11, a12, a13, a14, a15] := by
  obtain _ | ⟨a0, l⟩ := l; · exact absurd h (by simp)
  obtain _ | ⟨a1, l⟩ := l; · exact absurd h (by simp)
  obtain _ | ⟨a2, l⟩ := l; · exact absurd h (by simp)
  obtain _ | ⟨a3, l⟩ := l; · exact absurd h (by simp)
  obtain _ | ⟨a4, l⟩ := l; · exact absurd h (by simp)
  obtain _ | ⟨a5, l⟩ := l; · exact absurd h (by simp)
  obtain _ | ⟨a6, l⟩ := l; · exact absurd h (by simp)
  obtain _ | ⟨a7, l⟩ := l; · exact absurd h (by simp)
  obtain _ | ⟨a8, l⟩ := l; · exact absurd h (by simp)
  obtain _ | ⟨a9, l⟩ := l; · exact absurd h (by simp)
  obtain _ | ⟨a10, l⟩ := l; · exact absurd h (by simp)
  obtain _ | ⟨a11, l⟩ := l; · exact absurd h (by simp)
  obtain _ | ⟨a12, l⟩ := l; · exact absurd h (by simp)
  obtain _ | ⟨a13, l⟩ := l; · exact absurd h (by simp)
  obtain _ | ⟨a14, l⟩ := l; · exact absurd h (by simp)
  obtain _ | ⟨a15, l⟩ := l; · exact absurd h (by simp)
  obtain _ | ⟨a16, l⟩ := l
  · exact ⟨a0, a1, a2, a3, a4, a5, a6, a7, a8, a9, a10, a11, a12, a13, a14, a15, rfl⟩
  · refine absurd h ?_
    simp

/-- A 20-byte frame is a literal 20-element list. -/
lemma listOfLen20 (l : List Nat) (h : l.length = 20) :
    ∃ b0 b1 b2 b3 b4 b5 b6 b7 b8 b9 b10 b11 b12 b13 b14 b15 b16 b17 b18 b19,
      l = [b0, b1, b2, b3, b4, b5, b6, b7, b8, b9, b10,
           b11, b12, b13, b14, b15, b16, b17, b18, b19] := by
  obtain _ | ⟨b0, l⟩ := l; · exact absurd h (by simp)
  obtain _ | ⟨b1, l⟩ := l; · exact absurd h (by simp)
  obtain _ | ⟨b2, l⟩ := l; · exact absurd h (by simp)
  obtain _ | ⟨b3, l⟩ := l; · exact absurd h (by simp)
  obtain _ | ⟨b4, l⟩ := l; · exact absurd h (by simp)
  obtain _ | ⟨b5, l⟩ := l; · exact absurd h (by simp)
  obtain _ | ⟨b6, l⟩ := l; · exact absurd h (by simp)
  obtain _ | ⟨b7, l⟩ := l; · exact absurd h (by simp)
  obtain _ | ⟨b8, l⟩ := l; · exact absurd h (by simp)
  obtain _ | ⟨b9, l⟩ := l; · exact absurd h (by simp)
  obtain _ | ⟨b10, l⟩ := l; · exact absurd h (by simp)
  obtain _ | ⟨b11, l⟩ := l; · exact absurd h (by simp)
  obtain _ | ⟨b12, l⟩ := l; · exact absurd h (by simp)
  obtain _ | ⟨b13, l⟩ := l; · exact absurd h (by simp)
  obtain _ | ⟨b14, l⟩ := l; · exact absurd h (by simp)
  obtain _ | ⟨b15, l⟩ := l; · exact absurd h (by simp)
  obtain _ | ⟨b16, l⟩ := l; · exact absurd h (by simp)
  obtain _ | ⟨b17, l⟩ := l; · exact absurd h (by simp)
  obtain _ | ⟨b18, l⟩ := l; · exact absurd h (by simp)
  obtain _ | ⟨b19, l⟩ := l; · exact absurd h (by simp)
  obtain _ | ⟨b20, l⟩ := l
  · exact ⟨b0, b1, b2, b3, b4, b5, b6, b7, b8, b9, b10,
      b11, b12, b13, b14, b15, b16, b17, b18, b19, rfl⟩
  · refine absurd h ?_
    simp

/-- The frame `spi_write` builds: command byte then 19 zero bytes. -/
lemma sendbuf_write (cmd : Nat) : sendbuf (some [cmd]) 1 = cmd :: List.replicate 19 0 := rfl

/-- The frame `spi_read` builds: all zeros. -/
lemma sendbuf_read (len : Nat) : sendbuf none len = List.replicate FRAME_LEN 0 := rfl

/-- Successful run of the write-then-read body: two exchanges, the payload of
the second reply written into the struct. -/
lemma writeThenRead_ok (cmd off len : Nat) (st : List Nat) (bus : Nat → Option Frame)
    (f g : Frame) (h0 : bus 0 = some f) (h1 : bus 1 = some g) :
    writeThenRead cmd off len st bus =
      Outcome.ok (writeBytes st off (decodePayload g len))
        [⟨cmd :: List.replicate 19 0, FRAME_LEN⟩,
         ⟨List.replicate FRAME_LEN 0, FRAME_LEN⟩] := by
  simp [writeThenRead, spi_write, spi_read, spi_transfer, h0, h1, sendbuf, FRAME_LEN]

/-- Failure of the first ioctl: exit after one exchange, struct untouched. -/
lemma writeThenRead_fail0 (cmd off len : Nat) (st : List Nat) (bus : Nat → Option Frame)
    (h0 : bus 0 = none) :
    writeThenRead cmd off len st bus =
      Outcome.exited st [⟨cmd :: List.replicate 19 0, FRAME_LEN⟩] := by
  simp [writeThenRead, spi_write, spi_read, spi_transfer, h0, sendbuf, FRAME_LEN]

/-- Failure of the second ioctl: exit after two exchanges, struct untouched. -/
lemma writeThenRead_fail1 (cmd off len : Nat) (st : List Nat) (bus : Nat → Option Frame)
    (f : Frame) (h0 : bus 0 = some f) (h1 : bus 1 = none) :
    writeThenRead cmd off len st bus =
      Outcome.exited st
        [⟨cmd :: List.replicate 19 0, FRAME_LEN⟩,
         ⟨List.replicate FRAME_LEN 0, FRAME_LEN⟩] := by
  simp [writeThenRead, spi_write, spi_read, spi_transfer, h0, h1, sendbuf, FRAME_LEN]

/-- Every dispatcher operation is the write-then-read body at its choice's
command code, struct offset and payload length. -/
lemma dispatch_eq (c : Choice) (st : List Nat) (bus : Nat → Option Frame) :
    dispatch c st bus = writeThenRead (choiceCmd c) (choiceOff c) (choiceLen c) st bus := by
  cases c <;> rfl

/-- The 4 little-endian bytes 00 00 00 3F decode to the IEEE-754 single 0.5. -/
lemma float32bits_half : float32bits [0, 0, 0, 0x3F] = 1056964608 := by
  decide

/-- The 4 little-endian bytes 00 00 00 3F decode to the IEEE-754 single 0.5. -/
lemma float32val_half : float32val [0, 0, 0, 0x3F] = some (1 / 2 : ℚ) := by
  simp [float32val, float32bits_half]

/-- 0.5 scaled by 1000 gives the display value 500. -/
lemma float32val_half_scaled :
    (float32val [0, 0, 0, 0x3F]).map (fun q => q * 1000) = some (500 : ℚ) := by
  simp [float32val, float32bits_half]
  norm_num

/-- A bus whose every reply is the all-zero frame. -/
def busAllZero : Nat → Option Frame := fun _ => some (List.replicate FRAME_LEN 0)

/-! ## Claims -/

/-- **C1**, counterexample: with an all-zero-reply bus, `spi_read_voltage`
performs two full-duplex exchanges, not the single exchange the claim
states. -/
theorem C1_counterexample :
    (spi_read_voltage zeros_homeoffice busAllZero).trace.length = 2 ∧
    (spi_read_voltage zeros_homeoffice busAllZero).trace.length ≠ 1 := by
  decide

/-- **C1** (amended): every dispatcher operation performs exactly two
encode→exchange→decode steps on the bus: a first full exchange whose frame
carries the command byte (reply discarded), then a second full exchange with
an all-zero frame whose reply supplies the decoded Reading; a relay-set uses
the same two exchanges, the confirmation read being the second one. -/
theorem C1_two_exchanges (c : Choice) (st : List Nat) (bus : Nat → Option Frame)
    (f g : Frame) (h0 : bus 0 = some f) (h1 : bus 1 = some g) :
    dispatch c st bus =
      Outcome.ok (writeBytes st (choiceOff c) (decodePayload g (choiceLen c)))
        [⟨choiceCmd c :: List.replicate 19 0, FRAME_LEN⟩,
         ⟨List.replicate FRAME_LEN 0, FRAME_LEN⟩] := by
  rw [dispatch_eq, writeThenRead_ok _ _ _ _ _ _ _ h0 h1]

/-- **C1**, witness: the amended statement at choice `voltage`, the all-zero
struct and the all-zero-reply bus. -/
theorem C1_two_exchanges_witness :
    dispatch Choice.voltage zeros_homeoffice busAllZero =
      Outcome.ok
        (writeBytes zeros_homeoffice (choiceOff Choice.voltage)
          (decodePayload (List.replicate FRAME_LEN 0) (choiceLen Choice.voltage)))
        [⟨choiceCmd Choice.voltage :: List.replicate 19 0, FRAME_LEN⟩,
         ⟨List.replicate FRAME_LEN 0, FRAME_LEN⟩] :=
  C1_two_exchanges Choice.voltage zeros_homeoffice busAllZero
    (List.replicate FRAME_LEN 0) (List.replicate FRAME_LEN 0) rfl rfl

/-- A reply frame with distinct markers at bytes 11 and 15. -/
def frameMarked : Frame := [0, 0, 0, 0, 0, 0, 0, 0, 0, 0, 0, 7, 0, 0, 0, 9, 0, 0, 0, 0]

/-- A bus answering the first ioctl with zeros and the second with
`frameMarked`. -/
def busMarked : Nat → Option Frame :=
  fun j => if j = 0 then some (List.replicate FRAME_LEN 0) else some frameMarked

/-- **C2**, counterexample: after `spi_read_all` against a reply frame with
byte 11 = 7 and byte 15 = 9, the relay field holds 9 (frame byte 15), not
frame byte 11 as the claimed voltage(4)+current(4)+relay(1) 9-byte layout
would give. -/
theorem C2_counterexample :
    relay (spi_read_all zeros_homeoffice busMarked).state = 9 ∧
    frameMarked.getD 11 0 = 7 ∧
    relay (spi_read_all zeros_homeoffice busMarked).state ≠ frameMarked.getD 11 0 := by
  decide

/-- **C2** (amended): `spi_read_all` decodes a 16-byte payload — the size of
the packed, 4-aligned `homeoffice_data` struct — starting at reply offset 3:
voltage from reply bytes 3..7, current from 7..11, power from 11..15, and the
relay byte from reply byte 15 (bytes 16..19 land in the struct padding). -/
theorem C2_readAll_layout (st : List Nat) (bus : Nat → Option Frame) (f g : Frame)
    (h0 : bus 0 = some f) (h1 : bus 1 = some g)
    (hg : g.length = FRAME_LEN) (hst : st.length = sizeof_homeoffice_data) :
    choiceLen Choice.all = 16 ∧
    voltage (spi_read_all st bus).state = float32val ((g.drop 3).take 4) ∧
    current (spi_read_all st bus).state = float32val ((g.drop 7).take 4) ∧
    power (spi_read_all st bus).state = float32val ((g.drop 11).take 4) ∧
    relay (spi_read_all st bus).state = g.getD 15 0 := by
  obtain ⟨b0, b1, b2, b3, b4, b5, b6, b7, b8, b9, b10,
    b11, b12, b13, b14, b15, b16, b17, b18, b19, rfl⟩ := listOfLen20 g hg
  obtain ⟨a0, a1, a2, a3, a4, a5, a6, a7, a8, a9, a10,
    a11, a12, a13, a14, a15, rfl⟩ := listOfLen16 st hst
  have hrw : spi_read_all
      [a0, a1, a2, a3, a4, a5, a6, a7, a8, a9, a10, a11, a12, a13, a14, a15] bus =
      Outcome.ok
        (writeBytes [a0, a1, a2, a3, a4, a5, a6, a7, a8, a9, a10, a11, a12, a13, a14, a15]
          0 (decodePayload
            [b0, b1, b2, b3, b4, b5, b6, b7, b8, b9, b10,
             b11, b12, b13, b14, b15, b16, b17, b18, b19] sizeof_homeoffice_data))
        [⟨CMD_READ_ALL :: List.replicate 19 0, FRAME_LEN⟩,
         ⟨List.replicate FRAME_LEN 0, FRAME_LEN⟩] :=
    writeThenRead_ok _ _ _ _ _ _ _ h0 h1
  rw [hrw]
  exact ⟨rfl, rfl, rfl, rfl, rfl⟩

/-- A bus answering the second ioctl with the frame 0,1,...,19. -/
def busRange : Nat → Option Frame :=
  fun j => if j = 0 then some (List.replicate FRAME_LEN 0) else some (List.range FRAME_LEN)

/-- **C2**, witness: the amended layout at the all-zero struct and the reply
frame 0,1,...,19. -/
theorem C2_readAll_layout_witness :
    choiceLen Choice.all = 16 ∧
    voltage (spi_read_all zeros_homeoffice busRange).state
      = float32val (((List.range FRAME_LEN).drop 3).take 4) ∧
    current (spi_read_all zeros_homeoffice busRange).state
      = float32val (((List.range FRAME_LEN).drop 7).take 4) ∧
    power (spi_read_all zeros_homeoffice busRange).state
      = float32val (((List.range FRAME_LEN).drop 11).take 4) ∧
    relay (spi_read_all zeros_homeoffice busRange).state
      = (List.range FRAME_LEN).getD 15 0 :=
  C2_readAll_layout zeros_homeoffice busRange (List.replicate FRAME_LEN 0)
    (List.range FRAME_LEN) rfl rfl (by decide) (by decide)

/-- A bus whose second reply carries payload bytes 00 00 00 3F at offsets
3..7. -/
def busCurrentHalf : Nat → Option Frame :=
  fun j => if j = 0 then some (List.replicate FRAME_LEN 0)
           else some ([0, 0, 0, 0, 0, 0, 0x3F] ++ List.replicate 13 0)

/-- **C3**: readings are displayed in human units — the voltage display value
is the decoded voltage unscaled, the current and power display values are the
decoded values scaled by 1000; in particular a ReadCurrent exchange whose
reply carries payload bytes 00 00 00 3F (the 4-byte float 0.5) decodes to
current 0.5 and displays 500. -/
theorem C3_display_units (st : List Nat) (bus : Nat → Option Frame) (f g : Frame)
    (h0 : bus 0 = some f) (h1 : bus 1 = some g)
    (hst : st.length = sizeof_homeoffice_data)
    (hg : (g.drop 3).take 4 = [0, 0, 0, 0x3F]) :
    (∀ t : List Nat, displayVoltage t = voltage t) ∧
    (∀ (t : List Nat) (q : ℚ), current t = some q → displayCurrent t = some (q * 1000)) ∧
    (∀ (t : List Nat) (q : ℚ), power t = some q → displayPower t = some (q * 1000)) ∧
    current (spi_read_current st bus).state = some (1 / 2 : ℚ) ∧
    displayCurrent (spi_read_current st bus).state = some (500 : ℚ) := by
  obtain ⟨a0, a1, a2, a3, a4, a5, a6, a7, a8, a9, a10,
    a11, a12, a13, a14, a15, rfl⟩ := listOfLen16 st hst
  have hrw : spi_read_current
      [a0, a1, a2, a3, a4, a5, a6, a7, a8, a9, a10, a11, a12, a13, a14, a15] bus =
      Outcome.ok
        (writeBytes [a0, a1, a2, a3, a4, a5, a6, a7, a8, a9, a10, a11, a12, a13, a14, a15]
          OFF_CURRENT (decodePayload g sizeof_float))
        [⟨CMD_READ_CURRENT :: List.replicate 19 0, FRAME_LEN⟩,
         ⟨List.replicate FRAME_LEN 0, FRAME_LEN⟩] :=
    writeThenRead_ok _ _ _ _ _ _ _ h0 h1
  have hpay : decodePayload g sizeof_float = [0, 0, 0, 0x3F] := hg
  rw [hrw, hpay]
  refine ⟨fun t => rfl, fun t q h => ?_, fun t q h => ?_, ?_, ?_⟩
  · simp [displayCurrent, h]
  · simp [displayPower, h]
  · exact float32val_half
  · exact float32val_half_scaled

/-- **C3**, witness: the display scenario at the all-zero struct and the
concrete bus carrying the float 0.5. -/
theorem C3_display_units_witness :
    current (spi_read_current zeros_homeoffice busCurrentHalf).state = some (1 / 2 : ℚ) ∧
    displayCurrent (spi_read_current zeros_homeoffice busCurrentHalf).state = some (500 : ℚ) :=
  ⟨(C3_display_units zeros_homeoffice busCurrentHalf (List.replicate FRAME_LEN 0)
      ([0, 0, 0, 0, 0, 0, 0x3F] ++ List.replicate 13 0) rfl rfl rfl rfl).2.2.2.1,
   (C3_display_units zeros_homeoffice busCurrentHalf (List.replicate FRAME_LEN 0)
      ([0, 0, 0, 0, 0, 0, 0x3F] ++ List.replicate 13 0) rfl rfl rfl rfl).2.2.2.2⟩

/-- The seven command codes of the table. -/
def cmdCodes : List Nat :=
  [CMD_READ_VOLTAGE, CMD_READ_CURRENT, CMD_READ_POWER, CMD_READ_RELAY,
   CMD_READ_ALL, CMD_SET_RELAY_ON, CMD_SET_RELAY_OFF]

/-- **C4**: for each of the seven command codes, the outgoing frame built by
`spi_write` is 20 bytes: byte 0 the code, the other 19 bytes zero. -/
theorem C4_encode (cmd : Nat) (reply : Option Frame) (hc : cmd ∈ cmdCodes) :
    (spi_write cmd reply).1.tx = cmd :: List.replicate 19 0 ∧
    (spi_write cmd reply).1.tx.length = FRAME_LEN ∧
    (spi_write cmd reply).1.tx.getD 0 0 = cmd ∧
    ∀ i, 1 ≤ i → i < FRAME_LEN → (spi_write cmd reply).1.tx.getD i 0 = 0 := by
  have htx : (spi_write cmd reply).1.tx = cmd :: List.replicate 19 0 := by
    cases reply <;> simp [spi_write, spi_transfer, sendbuf, FRAME_LEN]
  refine ⟨htx, ?_, ?_, ?_⟩
  · rw [htx]; simp [FRAME_LEN]
  · rw [htx]; rfl
  · intro i h1 h2
    rw [htx]
    match i, h1 with
    | Nat.succ j, _ =>
      simpa [List.getD, List.getElem?_cons_succ]
        using List.getElem?_getD_replicate_default_eq 0 19 j

/-- **C4**, witness: the encoding of CMD_READ_VOLTAGE, with byte 5 drawn
from the zero padding. -/
theorem C4_encode_witness :
    (spi_write CMD_READ_VOLTAGE none).1.tx = CMD_READ_VOLTAGE :: List.replicate 19 0 ∧
    (spi_write CMD_READ_VOLTAGE none).1.tx.length = FRAME_LEN ∧
    (spi_write CMD_READ_VOLTAGE none).1.tx.getD 0 0 = CMD_READ_VOLTAGE ∧
    (spi_write CMD_READ_VOLTAGE none).1.tx.getD 5 0 = 0 :=
  ⟨(C4_encode CMD_READ_VOLTAGE none (by decide)).1,
   (C4_encode CMD_READ_VOLTAGE none (by decide)).2.1,
   (C4_encode CMD_READ_VOLTAGE none (by decide)).2.2.1,
   (C4_encode CMD_READ_VOLTAGE none (by decide)).2.2.2 5 (by decide) (by decide)⟩

/-- **C5**: for a 20-byte received frame and an expected payload length, the
decoded payload is exactly the frame bytes at offsets 3..3+len; it does not
depend on the frame's first three bytes; and a successful `spi_read` hands
exactly this slice to the caller. -/
theorem C5_decode_slice (fr : Frame) (len : Nat)
    (hf : fr.length = FRAME_LEN) (hlen : 3 + len ≤ FRAME_LEN) :
    (∀ i, i < len → (decodePayload fr len).getD i 0 = fr.getD (3 + i) 0) ∧
    (∀ a b c a2 b2 c2 : Nat, ∀ rest : List Nat,
      decodePayload (a :: b :: c :: rest) len
        = decodePayload (a2 :: b2 :: c2 :: rest) len) ∧
    (∀ recvbuf : Frame, (spi_read len (some recvbuf)).2
        = some (decodePayload recvbuf len)) := by
  refine ⟨?_, fun a b c a2 b2 c2 rest => rfl, fun recvbuf => rfl⟩
  intro i hi
  simp [decodePayload, List.getD, List.getElem?_take, List.getElem?_drop, hi]

/-- **C5**, witness: the slice property at the frame 0,1,...,19 with expected
length 4, and at two frames differing only in their first three bytes. -/
theorem C5_decode_slice_witness :
    (decodePayload (List.range FRAME_LEN) 4).getD 2 0 = (List.range FRAME_LEN).getD (3 + 2) 0 ∧
    decodePayload (9 :: 9 :: 9 :: List.replicate 17 0) 4
      = decodePayload (0 :: 0 :: 0 :: List.replicate 17 0) 4 ∧
    (spi_read 4 (some (List.range FRAME_LEN))).2
      = some (decodePayload (List.range FRAME_LEN) 4) :=
  ⟨(C5_decode_slice (List.range FRAME_LEN) 4 (by decide) (by decide)).1 2 (by decide),
   (C5_decode_slice (List.range FRAME_LEN) 4 (by decide) (by decide)).2.1
      9 9 9 0 0 0 (List.replicate 17 0),
   (C5_decode_slice (List.range FRAME_LEN) 4 (by decide) (by decide)).2.2
      (List.range FRAME_LEN)⟩

/-- **C6**: every exchange hands the driver the fixed transfer length
FRAME_LEN = 20 and a 20-byte transmit frame, whatever payload length the
caller requested. -/
theorem C6_fixed_frame (tx : Option (List Nat)) (rxNull : Bool) (len : Nat)
    (reply : Option Frame) (hlen : len ≤ FRAME_LEN)
    (htx : ∀ t, tx = some t → len ≤ t.length) :
    (spi_transfer tx rxNull len reply).1.len = FRAME_LEN ∧
    (spi_transfer tx rxNull len reply).1.tx.length = FRAME_LEN := by
  constructor
  · cases reply <;> rfl
  · have hs : (sendbuf tx len).length = FRAME_LEN := by
      cases tx with
      | none => simp [sendbuf]
      | some t =>
        have ht := htx t rfl
        simp only [sendbuf, List.length_append, List.length_take, List.length_replicate]
        simp only [FRAME_LEN] at hlen ⊢
        omega
    cases reply <;> exact hs

/-- **C6**, witness: the write exchange of CMD_READ_VOLTAGE, requested
length 1. -/
theorem C6_fixed_frame_witness :
    (spi_transfer (some [CMD_READ_VOLTAGE]) true 1 none).1.len = FRAME_LEN ∧
    (spi_transfer (some [CMD_READ_VOLTAGE]) true 1 none).1.tx.length = FRAME_LEN :=
  C6_fixed_frame (some [CMD_READ_VOLTAGE]) true 1 none (by decide)
    (by
      intro t ht
      injection ht with ht2
      rw [← ht2]
      decide)

/-- A bus that fails every ioctl. -/
def busFail : Nat → Option Frame := fun _ => none

/-- **C7**: if the driver reports a transfer failure during one of an
operation's exchanges, the operation does not return a Reading (the process
exits with a diagnostic) and the cached `gs_homeoffice_data` image is left
exactly as it was: the reply is never copied out on a failed transfer. -/
theorem C7_failure_no_mutation (c : Choice) (st : List Nat)
    (bus : Nat → Option Frame) (h : bus 0 = none ∨ bus 1 = none) :
    (dispatch c st bus).isOk = false ∧ (dispatch c st bus).state = st := by
  rw [dispatch_eq]
  rcases h with h0 | h1
  · rw [writeThenRead_fail0 _ _ _ _ _ h0]
    exact ⟨rfl, rfl⟩
  · cases hb : bus 0 with
    | none =>
      rw [writeThenRead_fail0 _ _ _ _ _ hb]
      exact ⟨rfl, rfl⟩
    | some f =>
      rw [writeThenRead_fail1 _ _ _ _ _ _ hb h1]
      exact ⟨rfl, rfl⟩

/-- **C7**, witness: the failing bus at choice `power` and the zeroed
struct. -/
theorem C7_failure_no_mutation_witness :
    (dispatch Choice.power zeros_homeoffice busFail).isOk = false ∧
    (dispatch Choice.power zeros_homeoffice busFail).state = zeros_homeoffice :=
  C7_failure_no_mutation Choice.power zeros_homeoffice busFail (Or.inl rfl)

/-- **C8**: if opening the device fails, or the driver rejects the mode, the
word width or the speed configuration, the process dies with the
corresponding startup diagnostic and performs no SPI exchange at all. -/
theorem C8_startup_failure (env : InitEnv) (cs : List Choice)
    (bus : Nat → Nat → Option Frame) :
    (env.openOk = false →
      session env cs bus = ProgResult.fatal Diag.openDevice []) ∧
    (env.openOk = true → env.modeOk = false →
      session env cs bus = ProgResult.fatal Diag.setMode []) ∧
    (env.openOk = true → env.modeOk = true → env.bitsOk = false →
      session env cs bus = ProgResult.fatal Diag.setBits []) ∧
    (env.openOk = true → env.modeOk = true → env.bitsOk = true →
      env.speedOk = false →
      session env cs bus = ProgResult.fatal Diag.setSpeed []) := by
  rcases env with ⟨o, m, b, s⟩
  cases o <;> cases m <;> cases b <;> cases s <;>
    refine ⟨?_, ?_, ?_, ?_⟩ <;> (intros; first | rfl | simp_all)

/-- A bus (per iteration, per ioctl) that fails every ioctl. -/
def busFailAll : Nat → Nat → Option Frame := fun _ _ => none

/-- **C8**, witness: a failing `open`, before an empty menu session. -/
theorem C8_startup_failure_witness :
    session ⟨false, true, true, true⟩ [] busFailAll
      = ProgResult.fatal Diag.openDevice [] :=
  (C8_startup_failure ⟨false, true, true, true⟩ [] busFailAll).1 rfl

/-- **C9**: each operation's requested payload length (4 = sizeof(float) for
the single-float reads, 1 for the relay byte, 16 = sizeof(homeoffice_data)
for readAll) satisfies 3 + len ≤ 20, so the decode slice at offsets 3..3+len
of a 20-byte receive frame is total: it yields exactly len bytes without
passing the end of the buffer. -/
theorem C9_slice_in_bounds (c : Choice) (fr : Frame) (hf : fr.length = FRAME_LEN) :
    (∀ st bus, dispatch c st bus
        = writeThenRead (choiceCmd c) (choiceOff c) (choiceLen c) st bus) ∧
    3 + choiceLen c ≤ FRAME_LEN ∧
    (decodePayload fr (choiceLen c)).length = choiceLen c := by
  refine ⟨dispatch_eq c, ?_, ?_⟩
  · cases c <;> decide
  · simp only [decodePayload, List.length_take, List.length_drop, hf]
    cases c <;> decide

/-- **C9**, witness: the readAll slice of the frame 0,1,...,19. -/
theorem C9_slice_in_bounds_witness :
    3 + choiceLen Choice.all ≤ FRAME_LEN ∧
    (decodePayload (List.range FRAME_LEN) (choiceLen Choice.all)).length
      = choiceLen Choice.all :=
  ⟨(C9_slice_in_bounds Choice.all (List.range FRAME_LEN) (by decide)).2.1,
   (C9_slice_in_bounds Choice.all (List.range FRAME_LEN) (by decide)).2.2⟩

/-- **C10**: `spi_set_relay` sends CMD_SET_RELAY_ON for every non-zero state
argument and CMD_SET_RELAY_OFF for zero, then decodes exactly one reply
payload byte (reply byte 3) as the new relay state, reporting ON iff that
byte is non-zero. -/
theorem C10_set_relay (state : Nat) (st : List Nat) (bus : Nat → Option Frame)
    (f g : Frame) (h0 : bus 0 = some f) (h1 : bus 1 = some g)
    (hst : st.length = sizeof_homeoffice_data) (hg : g.length = FRAME_LEN) :
    (state ≠ 0 →
      ((spi_set_relay state st bus).trace.headD ⟨[], 0⟩).tx.getD 0 0
        = CMD_SET_RELAY_ON) ∧
    (state = 0 →
      ((spi_set_relay state st bus).trace.headD ⟨[], 0⟩).tx.getD 0 0
        = CMD_SET_RELAY_OFF) ∧
    decodePayload g sizeof_uint8 = [g.getD 3 0] ∧
    relay (spi_set_relay state st bus).state = g.getD 3 0 ∧
    (displayRelayOn (spi_set_relay state st bus).state = true ↔ g.getD 3 0 ≠ 0) := by
  obtain ⟨b0, b1, b2, b3, b4, b5, b6, b7, b8, b9, b10,
    b11, b12, b13, b14, b15, b16, b17, b18, b19, rfl⟩ := listOfLen20 g hg
  obtain ⟨a0, a1, a2, a3, a4, a5, a6, a7, a8, a9, a10,
    a11, a12, a13, a14, a15, rfl⟩ := listOfLen16 st hst
  have hrw : spi_set_relay state
      [a0, a1, a2, a3, a4, a5, a6, a7, a8, a9, a10, a11, a12, a13, a14, a15] bus =
      Outcome.ok
        (writeBytes [a0, a1, a2, a3, a4, a5, a6, a7, a8, a9, a10, a11, a12, a13, a14, a15]
          OFF_RELAY (decodePayload
            [b0, b1, b2, b3, b4, b5, b6, b7, b8, b9, b10,
             b11, b12, b13, b14, b15, b16, b17, b18, b19] sizeof_uint8))
        [⟨(if state = 0 then CMD_SET_RELAY_OFF else CMD_SET_RELAY_ON)
            :: List.replicate 19 0, FRAME_LEN⟩,
         ⟨List.replicate FRAME_LEN 0, FRAME_LEN⟩] :=
    writeThenRead_ok _ _ _ _ _ _ _ h0 h1
  rw [hrw]
  refine ⟨?_, ?_, rfl, rfl, ?_⟩
  · intro hs
    simp [Outcome.trace, hs]
  · intro hs
    simp [Outcome.trace, hs]
  · simp [displayRelayOn, relay, Outcome.state, writeBytes, decodePayload,
      OFF_RELAY, sizeof_uint8]

/-- **C10**, witness: setting the relay on against the reply frame
0,1,...,19, whose payload byte is 3. -/
theorem C10_set_relay_witness :
    ((spi_set_relay 1 zeros_homeoffice busRange).trace.headD ⟨[], 0⟩).tx.getD 0 0
      = CMD_SET_RELAY_ON ∧
    relay (spi_set_relay 1 zeros_homeoffice busRange).state
      = (List.range FRAME_LEN).getD 3 0 ∧
    (displayRelayOn (spi_set_relay 1 zeros_homeoffice busRange).state = true
      ↔ (List.range FRAME_LEN).getD 3 0 ≠ 0) :=
  ⟨(C10_set_relay 1 zeros_homeoffice busRange (List.replicate FRAME_LEN 0)
      (List.range FRAME_LEN) rfl rfl rfl (by decide)).1 (by decide),
   (C10_set_relay 1 zeros_homeoffice busRange (List.replicate FRAME_LEN 0)
      (List.range FRAME_LEN) rfl rfl rfl (by decide)).2.2.2.1,
   (C10_set_relay 1 zeros_homeoffice busRange (List.replicate FRAME_LEN 0)
      (List.range FRAME_LEN) rfl rfl rfl (by decide)).2.2.2.2⟩

end Homeoffice
